import Mathlib

/-
  Verification of the type-string parser, column classifier, table profiler and
  flattening/coercion engine of the target-jq-clickhouse repository.

  The embedding follows the two Python source files
    core/utils/profile_table.py
    target_clickhouse/utils/ch_df_utils.py
  function by function.  Strings are modelled as lists of characters; the
  external ClickHouse client is modelled as an oracle mapping a query string to
  either an error or a list of named result values.
-/

namespace CH

/-! ## Character-list helpers (Python string operations) -/

/-- Python str.lower (per-character ASCII lowering). -/
def lowerChars (s : List Char) : List Char := s.map Char.toLower

/-- Python str.strip: drop leading and trailing whitespace. -/
def trimChars (s : List Char) : List Char :=
  ((s.dropWhile Char.isWhitespace).reverse.dropWhile Char.isWhitespace).reverse

theorem length_dropWhile_le (p : Char → Bool) :
    ∀ l : List Char, (l.dropWhile p).length ≤ l.length := by
  intro l
  induction l with
  | nil => simp
  | cons a as ih =>
    by_cases h : p a
    · rw [List.dropWhile_cons_of_pos h]
      exact le_trans ih (Nat.le_succ _)
    · rw [List.dropWhile_cons_of_neg h]

theorem trimChars_length_le (s : List Char) : (trimChars s).length ≤ s.length := by
  unfold trimChars
  calc ((s.dropWhile Char.isWhitespace).reverse.dropWhile Char.isWhitespace).reverse.length
      = ((s.dropWhile Char.isWhitespace).reverse.dropWhile Char.isWhitespace).length := by
        rw [List.length_reverse]
    _ ≤ (s.dropWhile Char.isWhitespace).reverse.length := length_dropWhile_le _ _
    _ = (s.dropWhile Char.isWhitespace).length := by rw [List.length_reverse]
    _ ≤ s.length := length_dropWhile_le _ _

/-- Python type_string.index(t : Char) introduced as an Option: index of the first
occurrence, none when absent (Python raises ValueError there). -/
def findParen (s : List Char) : Option Nat := s.findIdx? (· = '(')

/-- Python type_string.endswith(the closing parenthesis). -/
def endsParen (s : List Char) : Bool := s.getLast? = some ')'

/-- Python type_string[first_paren_index + 1 : -1]. -/
def innerChars (s : List Char) (i : Nat) : List Char := (s.drop (i + 1)).dropLast

theorem innerChars_length_lt (s : List Char) (i : Nat) (hs : s ≠ []) :
    (innerChars s i).length < s.length := by
  unfold innerChars
  rw [List.length_dropLast, List.length_drop]
  have hpos : 0 < s.length := List.length_pos.mpr hs
  omega

/-- Does the first list start with the second one. -/
def startsWithChars : List Char → List Char → Bool
  | _, [] => true
  | [], _ :: _ => false
  | a :: as, b :: bs => a = b && startsWithChars as bs

/-- Python substring containment (needle in hay). -/
def containsChars : List Char → List Char → Bool
  | [], needle => needle.isEmpty
  | c :: rest, needle => startsWithChars (c :: rest) needle || containsChars rest needle

/-! ## TypeNode: the dictionary returned by parse_ch_types

The Python parser returns dictionaries with keys data_type, annotations and
(args or both key and value); parse failure is None. -/

inductive TypeNode where
  | mk : String → List String → List TypeNode → Option TypeNode → Option TypeNode → TypeNode

def TypeNode.data_type : TypeNode → String
  | .mk d _ _ _ _ => d

def TypeNode.anns : TypeNode → List String
  | .mk _ a _ _ _ => a

def TypeNode.args : TypeNode → List TypeNode
  | .mk _ _ g _ _ => g

def TypeNode.keyField : TypeNode → Option TypeNode
  | .mk _ _ _ k _ => k

def TypeNode.valueField : TypeNode → Option TypeNode
  | .mk _ _ _ _ v => v

/-! ## parse_ch_types (profile_table.py lines 135-201) -/

/-- Step 1 of parse_ch_types: the while-loop that peels annotation wrappers.
One fuel unit per iteration; each iteration shortens the string by at least the
two outer parentheses, so the fuel length s + 1 supplied by peelAnns can never
run out before the loop exits by itself. -/
def peelF : Nat → List Char → List String → List String × List Char
  | 0, s, anns => (anns, s)
  | fuel + 1, s, anns =>
    match findParen s with
    | none => (anns, s)                              -- index raises ValueError: break
    | some i =>
      if endsParen s then
        let outer := (s.take i).asString
        if outer = "lowcardinality" ∨ outer = "nullable" then
          peelF fuel (trimChars (innerChars s i)) (anns ++ [outer])
        else (anns, s)                               -- unknown wrapper: break
      else (anns, s)                                 -- not fully parenthesized: break

def peelAnns (s : List Char) : List String × List Char := peelF (s.length + 1) s []

theorem peelF_length_le (fuel : Nat) :
    ∀ (s : List Char) (anns : List String), (peelF fuel s anns).2.length ≤ s.length := by
  induction fuel with
  | zero => intro s anns; simp [peelF]
  | succ f ih =>
    intro s anns
    unfold peelF
    cases hf : findParen s with
    | none => simp
    | some i =>
      simp only
      split
      · split
        · have hs : s ≠ [] := by
            rename_i he _
            intro h; subst h; simp [endsParen] at he
          calc (peelF f (trimChars (innerChars s i)) (anns ++ [(s.take i).asString])).2.length
              ≤ (trimChars (innerChars s i)).length := ih _ _
            _ ≤ (innerChars s i).length := trimChars_length_le _
            _ ≤ s.length := le_of_lt (innerChars_length_lt s i hs)
        · exact le_refl _
      · exact le_refl _

theorem peelAnns_length_le (s : List Char) : (peelAnns s).2.length ≤ s.length :=
  peelF_length_le _ s []

/-- Top-level comma split of parenthesized content: the running paren-depth
counter in parse_ch_types (level goes negative on a closing paren just as in
Python, where a comma splits only at level 0). -/
def splitTop : List Char → Int → List Char → List (List Char)
  | [], _, acc => [acc.reverse]
  | c :: rest, level, acc =>
    if c = '(' then splitTop rest (level + 1) (c :: acc)
    else if c = ')' then splitTop rest (level - 1) (c :: acc)
    else if c = ',' ∧ level = 0 then acc.reverse :: splitTop rest 0 []
    else splitTop rest level (c :: acc)

theorem splitTop_mem_length :
    ∀ (rest : List Char) (level : Int) (acc p : List Char),
      p ∈ splitTop rest level acc → p.length ≤ rest.length + acc.length := by
  intro rest
  induction rest with
  | nil =>
    intro level acc p hp
    simp only [splitTop, List.mem_singleton] at hp
    subst hp; simp
  | cons c cs ih =>
    intro level acc p hp
    unfold splitTop at hp
    split at hp
    · have := ih _ _ _ hp
      simp only [List.length_cons] at this ⊢; omega
    · split at hp
      · have := ih _ _ _ hp
        simp only [List.length_cons] at this ⊢; omega
      · split at hp
        · rcases List.mem_cons.mp hp with hp | hp
          · subst hp
            simp only [List.length_reverse, List.length_cons]; omega
          · have := ih _ _ _ hp
            simp only [List.length_nil, List.length_cons] at this ⊢; omega
        · have := ih _ _ _ hp
          simp only [List.length_cons] at this ⊢; omega

/-- Sequential parse of the argument substrings: any failing argument makes the
whole parse fail (lines 178-185). -/
def parseArgs (recur : List Char → Option TypeNode) : List (List Char) → Option (List TypeNode)
  | [] => some []
  | p :: ps =>
    match recur p with
    | none => none
    | some a =>
      match parseArgs recur ps with
      | none => none
      | some rest => some (a :: rest)

/-- Step 2 and 3 of parse_ch_types on the annotation-peeled string. -/
def parseCore (recur : List Char → Option TypeNode) (anns : List String) (s : List Char) :
    Option TypeNode :=
  match findParen s with
  | none =>
    -- index raises ValueError: simple type (line 199-201)
    some (.mk s.asString anns [] none none)
  | some i =>
    if endsParen s then
      let coreType := (s.take i).asString
      let content := innerChars s i
      let argsOpt : Option (List TypeNode) :=
        if (trimChars content).isEmpty then some []
        else parseArgs recur (splitTop content 0 [])
      match argsOpt with
      | none => none
      | some args =>
        -- NOTE (source line 189): the comparison is against the capitalized
        -- literal even though the input was lower-cased on entry, exactly as in
        -- the source; the branch is therefore unreachable.
        if coreType = "Map" then
          if args.length = 2 then some (.mk coreType anns [] args[0]? args[1]?)
          else none
        else some (.mk coreType anns args none none)
    else none

/-- parse_ch_types with explicit fuel; every recursive call is on a strictly
shorter string, which theorem parseF_fuel below turns into fuel irrelevance. -/
def parseF : Nat → List Char → Option TypeNode
  | 0, _ => none
  | fuel + 1, s =>
    let pr := peelAnns (trimChars (lowerChars s))
    parseCore (parseF fuel) pr.1 pr.2

/-- parse_ch_types (profile_table.py lines 135-201). -/
def parse_ch_types (s : String) : Option TypeNode := parseF (s.data.length + 1) s.data

theorem parseArgs_congr (r₁ r₂ : List Char → Option TypeNode) :
    ∀ ps : List (List Char), (∀ p ∈ ps, r₁ p = r₂ p) → parseArgs r₁ ps = parseArgs r₂ ps := by
  intro ps
  induction ps with
  | nil => intro _; rfl
  | cons p rest ih =>
    intro h
    unfold parseArgs
    rw [h p (List.mem_cons_self p rest), ih (fun q hq => h q (List.mem_cons_of_mem p hq))]

theorem parseCore_congr (r₁ r₂ : List Char → Option TypeNode) (anns : List String)
    (s : List Char) (h : ∀ p : List Char, p.length < s.length → r₁ p = r₂ p) :
    parseCore r₁ anns s = parseCore r₂ anns s := by
  unfold parseCore
  cases hf : findParen s with
  | none => rfl
  | some i =>
    simp only
    split
    · rename_i he
      have hs : s ≠ [] := by
        intro hnil; subst hnil; simp [endsParen] at he
      have hlt : (innerChars s i).length < s.length := innerChars_length_lt s i hs
      have hargs :
          (if (trimChars (innerChars s i)).isEmpty then some []
           else parseArgs r₁ (splitTop (innerChars s i) 0 [])) =
          (if (trimChars (innerChars s i)).isEmpty then some []
           else parseArgs r₂ (splitTop (innerChars s i) 0 [])) := by
        split
        · rfl
        · exact parseArgs_congr r₁ r₂ _ (fun p hp => by
            have hple := splitTop_mem_length (innerChars s i) 0 [] p hp
            simp only [List.length_nil, Nat.add_zero] at hple
            exact h p (lt_of_le_of_lt hple hlt))
      rw [hargs]
    · rfl

/-- Fuel irrelevance of the parser: every recursive call of parse_ch_types is on
a strictly shorter string, so any fuel above the input length yields one and the
same (always defined) result. -/
theorem parseF_fuel : ∀ (fuel : Nat) (s : List Char), s.length < fuel →
    parseF fuel s = parseF (s.length + 1) s := by
  intro fuel
  induction fuel using Nat.strong_induction_on with
  | _ fuel ih =>
    intro s hs
    match fuel, hs with
    | f + 1, hs =>
      show parseCore (parseF f) _ _ = parseCore (parseF s.length) _ _
      have hlen : (peelAnns (trimChars (lowerChars s))).2.length ≤ s.length := by
        calc (peelAnns (trimChars (lowerChars s))).2.length
            ≤ (trimChars (lowerChars s)).length := peelAnns_length_le _
          _ ≤ (lowerChars s).length := trimChars_length_le _
          _ = s.length := by simp [lowerChars]
      apply parseCore_congr
      intro p hp
      have hps : p.length < s.length := lt_of_lt_of_le hp hlen
      have h1 : parseF f p = parseF (p.length + 1) p := by
        rcases Nat.eq_or_lt_of_le (Nat.lt_succ_iff.mp hs) with hE | hL
        · subst hE; exact ih s.length (Nat.lt_succ_self _) p hps
        · exact ih f (Nat.lt_succ_self _) p (lt_trans hps hL)
      have h2 : parseF s.length p = parseF (p.length + 1) p :=
        ih s.length hs p hps
      rw [h1, h2]

/-! ## Column classifier (profile_table.py lines 35-50, 203-276) -/

inductive ColumnType where
  | BASIC | ARRAY | MAP | GROUPED | NESTED
  deriving DecidableEq, Repr

inductive ValueType where
  | STRING | NUMBER | DATE | UUID | BOOLEAN | OTHER
  deriving DecidableEq, Repr

/-- Python substring test (needle in hay) on strings. -/
def strContains (hay needle : String) : Bool := containsChars hay.data needle.data

/-- resolve_datatype (profile_table.py lines 203-228). -/
def resolve_datatype (data_type : String) : ValueType :=
  let d := (lowerChars data_type.data).asString
  if strContains d "string" ∨ strContains d "fixedstring" ∨ strContains d "enum" then .STRING
  else if strContains d "int" ∨ strContains d "float" ∨ strContains d "decimal"
          ∨ strContains d "double" ∨ strContains d "uint" then .NUMBER
  else if strContains d "date" ∨ strContains d "datetime" then .DATE
  else if strContains d "uuid" then .UUID
  else if strContains d "bool" then .BOOLEAN
  else .OTHER

/-- determine_column_type (profile_table.py lines 230-276).  The error cases
model the ValueError raised on an invalid array or map type definition, and the
AttributeError hit when parse_ch_types returns None. -/
def determine_column_type (column_name column_type_str : String) :
    Except String (ColumnType × ValueType × Option ValueType) :=
  let ts := (lowerChars column_type_str.data).asString
  match parse_ch_types ts with
  | none => .error "AttributeError: NoneType has no attribute get"
  | some st =>
    if st.data_type = "array" then
      match st.args with
      | a :: _ => .ok (.ARRAY, resolve_datatype a.data_type, none)
      | [] => .error ("Invalid array type definition: " ++ ts)
    else if st.data_type = "map" then
      match st.args with
      | [k, v] => .ok (.MAP, resolve_datatype v.data_type, some (resolve_datatype k.data_type))
      | _ => .error ("Invalid map type definition: " ++ ts)
    else if column_name.data.any (fun c => c = '.') then .ok (.GROUPED, resolve_datatype st.data_type, none)
    else .ok (.BASIC, resolve_datatype st.data_type, none)

/-! ## Profile and column models (profile_table.py lines 52-129)

DBValue models a value coming back from the query collaborator; the profile
fields store these raw values just as the Python code assigns query results
directly into the pydantic fields. -/

inductive DBValue where
  | null
  | num (n : Int)
  | text (s : String)
  | list (l : List DBValue)

/-- Python: value is not None and value greater than zero (comparisons of
non-numeric results would raise in Python and do not occur). -/
def dbPos : DBValue → Bool
  | .num n => 0 < n
  | _ => false

/-- Python truthiness of a value stored in a profile field wrapped in Option
(absent or None are falsy, zero and the empty list are falsy). -/
def dbTruthy : Option DBValue → Bool
  | none => false
  | some .null => false
  | some (.num n) => n ≠ 0
  | some (.text s) => s ≠ ""
  | some (.list l) => ¬l.isEmpty

structure ColumnProfile where
  min_value : Option DBValue := none
  max_value : Option DBValue := none
  avg_value : Option DBValue := none
  value_rows : Option DBValue := none
  unique_values : Option DBValue := none
  unique_keys : Option DBValue := none
  value_list : List (String × DBValue) := []
  has_values : Bool := false

structure ColumnDetails where
  name : String
  type : String
  column_type : ColumnType
  key_data_type : Option ValueType
  value_data_type : ValueType
  required : Bool
  is_nested : Option Bool
  is_nested_subcolumn : Option Bool
  parent_name : Option String
  child_name : String
  nested_path : List String
  profile : Option ColumnProfile

structure NestedColumnInfo where
  parent_name : String
  subcolumns : List ColumnDetails := []
  column_type : ColumnType := ColumnType.NESTED
  profile : Option ColumnProfile := none

/-- GroupedColumnInfo as declared in profile_table.py lines 105-110: its
column_type field defaults to ColumnType.NESTED exactly as in the source, where
the class body was copied from NestedColumnInfo. -/
structure GroupedColumnInfo where
  parent_name : String
  subcolumns : List ColumnDetails := []
  column_type : ColumnType := ColumnType.NESTED
  profile : Option ColumnProfile := none

inductive TableEntry where
  | details (cd : ColumnDetails)
  | nestedInfo (ni : NestedColumnInfo)
  | groupedInfo (gi : GroupedColumnInfo)

def TableEntry.columnType : TableEntry → ColumnType
  | .details cd => cd.column_type
  | .nestedInfo ni => ni.column_type
  | .groupedInfo gi => gi.column_type

def TableEntry.profileOf : TableEntry → Option ColumnProfile
  | .details cd => cd.profile
  | .nestedInfo ni => ni.profile
  | .groupedInfo gi => gi.profile

def TableEntry.setProfile : TableEntry → Option ColumnProfile → TableEntry
  | .details cd, p => .details { cd with profile := p }
  | .nestedInfo ni, p => .nestedInfo { ni with profile := p }
  | .groupedInfo gi, p => .groupedInfo { gi with profile := p }

def TableEntry.valueTypeOf : TableEntry → Option ValueType
  | .details cd => some cd.value_data_type
  | _ => none      -- family infos carry no value_data_type (AttributeError in Python)

def TableEntry.subcolumnsOf : TableEntry → List ColumnDetails
  | .details _ => []   -- ColumnDetails has no subcolumns attribute (AttributeError)
  | .nestedInfo ni => ni.subcolumns
  | .groupedInfo gi => gi.subcolumns

def TableEntry.parentOf : TableEntry → String
  | .details cd => cd.parent_name.getD ""
  | .nestedInfo ni => ni.parent_name
  | .groupedInfo gi => gi.parent_name

def TableEntry.appendSub : TableEntry → ColumnDetails → TableEntry
  | .details cd, _ => .details cd   -- unreachable: only family infos receive subcolumns
  | .nestedInfo ni, cd => .nestedInfo { ni with subcolumns := ni.subcolumns ++ [cd] }
  | .groupedInfo gi, cd => .groupedInfo { gi with subcolumns := gi.subcolumns ++ [cd] }

def TableEntry.isSubcolumnDetails : TableEntry → Bool
  | .details cd => cd.is_nested_subcolumn = some true
  | _ => false

structure ProfiledTable where
  database : String
  table : String
  where_clause : String
  rows : Int
  columns : List (String × TableEntry)

/-! ## First pass of profile_ch_table: schema resolution (lines 339-380) -/

def lookupEntry (cols : List (String × TableEntry)) (k : String) : Option TableEntry :=
  (cols.find? (fun p => p.1 == k)).map (·.2)

def updateEntry (cols : List (String × TableEntry)) (k : String)
    (f : TableEntry → TableEntry) : List (String × TableEntry) :=
  cols.map (fun p => if p.1 == k then (p.1, f p.2) else p)

/-- Python column_name.split(the dot, 1). -/
def splitDot (s : String) : String × String :=
  match s.data.findIdx? (· = '.') with
  | some i => ((s.data.take i).asString, (s.data.drop (i + 1)).asString)
  | none => (s, "")

/-- One iteration of the schema loop of profile_ch_table (lines 340-380). -/
def resolveStep (cols : List (String × TableEntry)) (nameTy : String × String) :
    Except String (List (String × TableEntry)) :=
  let column_name := nameTy.1
  let column_type_str := (lowerChars nameTy.2.data).asString
  match determine_column_type column_name column_type_str with
  | .error e => .error e
  | .ok (ct, vdt, kdt) =>
  if column_name.data.any (fun c => c = '.') then
    let pc := splitDot column_name
    let parent := pc.1
    let child := pc.2
    let fresh := (lookupEntry cols parent).isNone
    let cols1 :=
      if fresh then
        cols ++ [(parent,
          if ct = .GROUPED then .groupedInfo { parent_name := parent }
          else .nestedInfo { parent_name := parent })]
      else cols
    let is_first : Option Bool := if fresh then some true else none
    let cd : ColumnDetails :=
      { name := column_name, type := column_type_str, column_type := ct,
        key_data_type := kdt, value_data_type := vdt, required := false,
        is_nested := is_first, is_nested_subcolumn := some true,
        parent_name := some parent, child_name := child,
        nested_path := if parent ≠ "" ∧ child ≠ "" then [parent, child] else [column_name],
        profile := none }
    .ok (updateEntry cols1 parent (fun e => e.appendSub cd))
  else
    let cd : ColumnDetails :=
      { name := column_name, type := column_type_str, column_type := ct,
        key_data_type := kdt, value_data_type := vdt, required := false,
        is_nested := none, is_nested_subcolumn := none,
        parent_name := none, child_name := column_name,
        nested_path := [column_name], profile := none }
    .ok (cols ++ [(column_name, .details cd)])

def resolveColumns (schema : List (String × String)) :
    Except String (List (String × TableEntry)) :=
  schema.foldlM resolveStep []

/-! ## Batched statistics pass: probe_columns_batch (lines 439-544)

A select part is one projected aggregate expression together with the column
name and metric encoded in its alias, which the result merge recovers by
splitting the alias on the rightmost double underscore. -/

structure SelectPart where
  col : String
  metric : String
  expr : String
  deriving DecidableEq, Repr

abbrev ChError := String

def configGet (config : List (String × String)) (k : String) : Option String :=
  (config.find? (fun p => p.1 == k)).map (·.2)

/-- The per-column query-part builder of probe_columns_batch (lines 461-504),
dispatching on the duck-typed column_type and value_data_type attributes. -/
def buildParts (config : List (String × String)) (column_name : String) (entry : TableEntry) :
    List SelectPart :=
  if entry.columnType = .MAP then
    [⟨column_name, "map_keys",
      s!"groupUniqArrayArray(mapKeys(`{column_name}`)) as {column_name}__map_keys"⟩,
     ⟨column_name, "distinct_count",
      s!"arrayUniq(flatten(groupArrayArray(mapKeys(`{column_name}`)))) as {column_name}__distinct_count"⟩,
     ⟨column_name, "value_rows",
      s!"countIf(length(mapKeys(`{column_name}`)) > 0) as {column_name}__value_rows"⟩]
  else if entry.columnType = .ARRAY then
    if entry.valueTypeOf = some .STRING then
      [⟨column_name, "value_rows",
        s!"countIf(`{column_name}` IS NOT NULL and length(`{column_name}`) > 0) as {column_name}__value_rows"⟩,
       ⟨column_name, "distinct_count",
        s!"uniq(`{column_name}`) as {column_name}__distinct_count"⟩]
    else []
  else if entry.columnType = .GROUPED then []
  else if entry.columnType = .NESTED then
    let parent := entry.parentOf
    let type_column :=
      (configGet config parent).getD
        (match entry.subcolumnsOf.head? with
         | some c => c.child_name
         | none => "")   -- Python dereferences None here; families always have a first subcolumn
    [⟨column_name, "map_keys",
      s!"arrayDistinct(arrayFlatten(groupArray(`{parent}.{type_column}`))) as {column_name}__map_keys"⟩,
     ⟨column_name, "value_rows",
      s!"countIf(length(arrayFlatten(`{parent}.{type_column}`)) > 0) as {column_name}__value_rows"⟩]
  else
    match entry.valueTypeOf with
    | some .DATE =>
      [⟨column_name, "min_value", s!"min(`{column_name}`) as {column_name}__min_value"⟩,
       ⟨column_name, "max_value", s!"max(`{column_name}`) as {column_name}__max_value"⟩,
       ⟨column_name, "value_rows",
        s!"countIf(`{column_name}` IS NOT NULL) as {column_name}__value_rows"⟩]
    | some .NUMBER =>
      [⟨column_name, "min_value", s!"min(`{column_name}`) as {column_name}__min_value"⟩,
       ⟨column_name, "max_value", s!"max(`{column_name}`) as {column_name}__max_value"⟩,
       ⟨column_name, "value_rows",
        s!"countIf(`{column_name}` IS NOT NULL and `{column_name}` <> 0) as {column_name}__value_rows"⟩]
    | some .STRING =>
      [⟨column_name, "distinct_count", s!"uniq(`{column_name}`) as {column_name}__distinct_count"⟩,
       ⟨column_name, "value_rows",
        s!"countIf(`{column_name}` IS NOT NULL and `{column_name}` != \x27\x27) as {column_name}__value_rows"⟩]
    | some _ =>
      [⟨column_name, "distinct_count", s!"uniq(`{column_name}`) as {column_name}__distinct_count"⟩,
       ⟨column_name, "value_rows",
        s!"countIf(`{column_name}` IS NOT NULL) as {column_name}__value_rows"⟩]
    | none => []   -- unreachable: only ColumnDetails entries reach the value-kind chain

/-- Python: the single underscore in key. -/
def hasUnderscore (s : String) : Bool := s.data.any (fun c => c = '_')

/-- Index of the last occurrence of a double underscore. -/
def lastDunder (s : List Char) : Option Nat :=
  ((List.range s.length).filter (fun i => startsWithChars (s.drop i) ['_', '_'])).getLast?

/-- Python key.rsplit on a double underscore with maxsplit one. -/
def rsplitDunder (s : String) : Option (String × String) :=
  match lastDunder s.data with
  | some i => some ((s.data.take i).asString, (s.data.drop (i + 2)).asString)
  | none => none

/-- Metric dispatch of the result merge (lines 530-540). -/
def applyMetric (metric : String) (v : DBValue) (p : ColumnProfile) : ColumnProfile :=
  if metric = "map_keys" then { p with unique_keys := some v }
  else if metric = "distinct_count" then { p with unique_values := some v }
  else if metric = "min_value" then { p with min_value := some v }
  else if metric = "max_value" then { p with max_value := some v }
  else if metric = "value_rows" then { p with value_rows := some v, has_values := dbPos v }
  else p

/-- The inner for-loop over columns_batch (lines 523-541): update the first
entry whose name matches, creating its profile on first write. -/
def updateFirstMatching (batch : List (String × TableEntry)) (colName metric : String)
    (v : DBValue) : List (String × TableEntry) :=
  match batch with
  | [] => []
  | (n, e) :: rest =>
    if n == colName then
      (n, e.setProfile (some (applyMetric metric v (e.profileOf.getD {})))) :: rest
    else (n, e) :: updateFirstMatching rest colName metric v

/-- One merge step for a named result value (lines 516-541).  A key containing
a single underscore but no double underscore would raise a ValueError in
Python; result keys are the aliases built above, which always contain one. -/
def mergeStep (batch : List (String × TableEntry)) (kv : String × DBValue) :
    List (String × TableEntry) :=
  if hasUnderscore kv.1 then
    match rsplitDunder kv.1 with
    | some (colName, metric) => updateFirstMatching batch colName metric kv.2
    | none => batch
  else batch

def batchQueryStr (database table : String) (parts : List SelectPart) (whereCond : String) :
    String :=
  "SELECT " ++ String.intercalate ", " (parts.map (·.expr)) ++
    s!" FROM {database}.`{table}` {whereCond}"

/-- probe_columns_batch (lines 439-544).  The oracle stands for ch_client.query
followed by named_results, returning the flattened named values; a query error
is caught and logged, leaving the batch unchanged.  Returns the updated batch
together with the issued query text. -/
def probe_columns_batch (database table : String) (batch : List (String × TableEntry))
    (whereCond : String) (config : List (String × String))
    (oracle : String → Except ChError (List (String × DBValue))) :
    List (String × TableEntry) × String :=
  let parts := (batch.map (fun p => buildParts config p.1 p.2)).flatten
  let query := batchQueryStr database table parts whereCond
  match oracle query with
  | .error _ => (batch, query)
  | .ok resp => (resp.foldl mergeStep batch, query)

/-! ## Low-cardinality probe: profile_low_cardinality_columns (lines 409-436) -/

/-- Python str() rendering of a query value interpolated into an f-string. -/
def dbToString : DBValue → String
  | .null => "None"
  | .num n => toString n
  | .text s => s
  | .list _ => "[...]"

/-- Truthy unique_keys as iterated by the probe: a non-empty result list
(non-list truthy values would raise on iteration in Python). -/
def ukList : Option DBValue → Option (List DBValue)
  | some (.list ks) => if ks.isEmpty then none else some ks
  | _ => none

/-- The select-part builder of profile_low_cardinality_columns (lines 410-420).
Family infos are filtered out by the isinstance check. -/
def lcParts (p : String × TableEntry) : List SelectPart :=
  match p.2 with
  | .details cd =>
    if cd.value_data_type = .STRING then
      match cd.profile with
      | some prof =>
        match prof.unique_values with
        | some (.num uv) =>
          if uv ≠ 0 ∧ 1 < uv ∧ uv < 200 then
            if cd.column_type = .MAP then
              match ukList prof.unique_keys with
              | some ks =>
                ks.map (fun k =>
                  let mk := dbToString k
                  ⟨p.1, mk,
                   s!"arraySort(groupUniqArray(trim(`{p.1}`[\x27{mk}\x27]))) as {p.1}__{mk}__map_keys"⟩)
              | none => []
            else if cd.column_type = .BASIC then
              [⟨p.1, p.1, s!"arraySort(groupUniqArray(`{p.1}`)) as {p.1}__{p.1}__map_keys"⟩]
            else []
          else []
        | _ => []   -- unique_values absent (falsy) or non-numeric (comparison raises)
      | none => []
    else []
  | _ => []

/-- Split a string at every double underscore, as key.rsplit with no maxsplit
does for keys containing no overlapping separators.  Each step recurses on a
strict initial segment, so fuel equal to the length never runs out. -/
def splitAllDunderF : Nat → List Char → List String
  | 0, s => [s.asString]
  | f + 1, s =>
    match lastDunder s with
    | some i => splitAllDunderF f (s.take i) ++ [(s.drop (i + 2)).asString]
    | none => [s.asString]

def splitAllDunder (s : List Char) : List String := splitAllDunderF s.length s

/-- Python dict update value_list[value_key] = value (overwrite or append). -/
def setKeyVal (l : List (String × DBValue)) (k : String) (v : DBValue) :
    List (String × DBValue) :=
  if l.any (fun p => p.1 == k) then l.map (fun p => if p.1 == k then (p.1, v) else p)
  else l ++ [(k, v)]

/-- One result-merge step of the probe (lines 427-432): split the alias into
column, value key and trailing map_keys marker, then store the value list on
that column.  A key that does not split into exactly three parts, a column
missing from the cache, or a column without a profile would raise in Python;
such keys do not arise from the probe query. -/
def lcMergeStep (entries : List (String × TableEntry)) (kv : String × DBValue) :
    List (String × TableEntry) :=
  if containsChars kv.1.data ['_', '_'] then
    match splitAllDunder kv.1.data with
    | [colName, valueKey, _] =>
      entries.map (fun p =>
        if p.1 == colName then
          match p.2.profileOf with
          | some prof =>
            (p.1, p.2.setProfile (some { prof with
              value_list := setKeyVal prof.value_list valueKey
                (match kv.2 with
                 | .list l => .list l
                 | v => .list [v]) }))
          | none => p
        else p)
    | _ => entries
  else entries

/-- profile_low_cardinality_columns (lines 409-436): builds the follow-up
query; a query error is re-raised (in contrast to the batch pass).  Returns the
updated entries and the query it issued, when any. -/
def profile_low_cardinality_columns (database table : String)
    (analysed : List (String × TableEntry)) (whereCond : String)
    (oracle : String → Except ChError (List (String × DBValue))) :
    Except ChError (List (String × TableEntry) × List String) :=
  let parts := (analysed.map lcParts).flatten
  if parts.isEmpty then .ok (analysed, [])
  else
    let query := batchQueryStr database table parts whereCond
    match oracle query with
    | .error e => .error e
    | .ok resp => .ok (resp.foldl lcMergeStep analysed, [query])

/-! ## profile_ch_table (lines 279-407) -/

inductive PError where
  | chError (e : ChError)
  | valueError (msg : String)
  deriving DecidableEq, Repr

/-- The batching loop: slices of ten columns (line 395-397). -/
def chunkF : Nat → List (String × TableEntry) → List (List (String × TableEntry))
  | 0, _ => []
  | _, [] => []
  | f + 1, l => l.take 10 :: chunkF f (l.drop 10)

def chunkList (l : List (String × TableEntry)) : List (List (String × TableEntry)) :=
  chunkF l.length l

/-- Write the probed entries back over the column map (the Python code mutates
the shared entry objects in place). -/
def writeBack (cols upd : List (String × TableEntry)) : List (String × TableEntry) :=
  cols.map (fun p =>
    match upd.find? (fun q => q.1 == p.1) with
    | some q => (p.1, q.2)
    | none => p)

/-- profile_ch_table (lines 279-407), with the external collaborator split into
its observable pieces: the DESCRIBE result (schema), the count query result and
the query oracle used for the statistics passes.  The table-existence and
schema-retrieval steps are prior fatal steps not modelled here.  Returns the
profiled table together with the list of per-column statistics queries issued
(batch queries, then the optional low-cardinality query). -/
def profile_ch_table (database table where_clause : String)
    (config : List (String × String)) (lc_probe : Bool)
    (schema : List (String × String)) (countResult : Except ChError Int)
    (oracle : String → Except ChError (List (String × DBValue))) :
    Except PError (ProfiledTable × List String) :=
  match countResult with
  | .error e => Except.error (PError.chError e)   -- error counting rows: raise
  | .ok rows =>
  match resolveColumns schema with
  | .error m => Except.error (PError.valueError m)
  | .ok cols =>
  if rows > 0 then
    let toProfile := cols.filter (fun p => !p.2.isSubcolumnDetails)
    let whereCond := if where_clause ≠ "" then "WHERE " ++ where_clause else ""
    let processed := (chunkList toProfile).map
      (fun c => probe_columns_batch database table c whereCond config oracle)
    let updated := (processed.map (·.1)).flatten
    let queries := processed.map (·.2)
    let cols2 := writeBack cols updated
    if lc_probe then
      match profile_low_cardinality_columns database table updated whereCond oracle with
      | .error e => Except.error (PError.chError e)
      | .ok (updated2, lcQueries) =>
        Except.ok ({ database := database, table := table, where_clause := where_clause,
                     rows := rows, columns := writeBack cols2 updated2 }, queries ++ lcQueries)
    else
      Except.ok ({ database := database, table := table, where_clause := where_clause,
                   rows := rows, columns := cols2 }, queries)
  else
    Except.ok ({ database := database, table := table, where_clause := where_clause,
                 rows := rows, columns := cols }, [])

/-! ## Flattening: flatten_nested_fields (ch_df_utils.py lines 356-379)

Input records are JSON-like items: association lists from field name to value. -/

inductive JVal where
  | null
  | str (s : String)
  | num (n : Int)
  | boolV (b : Bool)
  | arr (l : List JVal)
  | obj (fs : List (String × JVal))

/-- Python truthiness of a JSON value. -/
def jTruthy : JVal → Bool
  | .null => false
  | .str s => s ≠ ""
  | .num n => n ≠ 0
  | .boolV b => b
  | .arr l => ¬l.isEmpty
  | .obj fs => ¬fs.isEmpty

/-- A member of metadata nested: one subcolumn of a nested family, as built by
find_nested_columns (which always sets both the full dotted name and the
trailing field). -/
structure NestedComponent where
  name : String
  comp_field : String
  deriving DecidableEq, Repr

/-- Line 371-375: nested_field_value.get(field) when the element is truthy,
otherwise None.  Elements are objects (a non-object truthy element would raise
AttributeError in Python). -/
def projectField (fieldName : String) (v : JVal) : JVal :=
  if jTruthy v then
    match v with
    | .obj fs => ((fs.find? (fun p => p.1 == fieldName)).map (·.2)).getD .null
    | _ => .null
  else .null

abbrev Item := List (String × JVal)

/-- Python dict assignment item[k] = v. -/
def setItemKey (item : Item) (k : String) (v : JVal) : Item :=
  if item.any (fun p => p.1 == k) then
    item.map (fun p => if p.1 == k then (p.1, v) else p)
  else item ++ [(k, v)]

/-- Python del item[k]. -/
def delItemKey (item : Item) (k : String) : Item :=
  item.filter (fun p => ¬p.1 == k)

/-- The body of the per-family loop of flatten_nested_fields (lines 361-377):
when the item holds the family under its name as a list, build one sibling
array per component by projecting that component out of every element in
order, then delete the original nested field. -/
def flattenFamily (item : Item) (famName : String) (comps : List NestedComponent) : Item :=
  match (item.find? (fun p => p.1 == famName)).map (·.2) with
  | some (JVal.arr vs) =>
    let item2 := comps.foldl
      (fun it comp => setItemKey it comp.name (.arr (vs.map (projectField comp.comp_field)))) item
    delItemKey item2 famName
  | _ => item

def flattenItem (nested : List (String × List NestedComponent)) (item : Item) : Item :=
  nested.foldl (fun it p => flattenFamily it p.1 p.2) item

/-- flatten_nested_fields (lines 356-379) on already-fetched nested metadata. -/
def flatten_nested_fields (nested : List (String × List NestedComponent))
    (items : List Item) : List Item :=
  items.map (flattenItem nested)

/-! ## Coercion: replace_none_where_needed (ch_df_utils.py lines 219-245)

Cell values of a dataframe column. -/

inductive CellVal where
  | null
  | nan
  | str (s : String)
  | num (n : Int)
  | boolV (b : Bool)
  | uuidV (s : String)
  | mapV (fs : List (String × CellVal))
  | arrV (l : List CellVal)

/-- Python truthiness of a cell (np.nan is truthy; uuid objects are truthy). -/
def cellTruthy : CellVal → Bool
  | .null => false
  | .nan => true
  | .str s => s ≠ ""
  | .num n => n ≠ 0
  | .boolV b => b
  | .uuidV _ => true
  | .mapV fs => ¬fs.isEmpty
  | .arrV l => ¬l.isEmpty

def nullUuidCell : CellVal := .uuidV "00000000-0000-0000-0000-000000000000"

def CellVal.isNullCell : CellVal → Bool
  | .null => true
  | _ => false

/-- isinstance(y, float), with num modelling the numeric values. -/
def isFloatCell : CellVal → Bool
  | .num _ => true
  | .nan => true
  | _ => false

/-- pandas fillna(0): None and NaN become zero. -/
def fillnaZero : CellVal → CellVal
  | .null => .num 0
  | .nan => .num 0
  | x => x

/-- Converters of CH_PYTHON_CONVERTERS (lines 12-27); pair entries are the
tuple converters. -/
inductive Converter where
  | strC | floatC | intC | boolC | uuidC | datetimeC | pointC | enumC | jsonC | ipC
  deriving DecidableEq, Repr

structure ColMeta where
  name : String
  type : String
  is_map : Bool
  is_req : Bool
  is_array : Bool
  basic_type : String
  converter : Option Converter
  deriving Repr

/-- Sequential traversal over Except: the first error propagates, mirroring a
Python comprehension in which the first raised exception aborts the whole
expression. -/
def mapExcept {a b : Type} (f : a -> Except String b) : List a -> Except String (List b)
  | [] => .ok []
  | x :: xs =>
    match f x with
    | .error e => .error e
    | .ok y =>
      match mapExcept f xs with
      | .error e => .error e
      | .ok ys => .ok (y :: ys)

/-- The per-column body of replace_none_where_needed (lines 221-245).  The
float(y) call of the Float-array branch is runtime conversion, abstracted as
pyFloat (none models the ValueError it can raise); iterating a non-list cell
in an array branch models the TypeError Python raises there. -/
def replaceColumn (pyFloat : CellVal → Option CellVal) (m : ColMeta) (vals : List CellVal) :
    Except String (List CellVal) :=
  if m.is_map then
    .ok (vals.map (fun x => if x.isNullCell then .mapV [] else x))
  else if m.is_array then
    if m.basic_type = "String" then
      mapExcept (fun x => match x with
        | .arrV l => .ok (CellVal.arrV (l.map (fun y => if cellTruthy y then y else .str "")))
        | _ => .error "TypeError: not iterable") vals
    else if m.basic_type = "Float" then
      mapExcept (fun x => match x with
        | .arrV l =>
          (mapExcept (fun y =>
            if isFloatCell y then Except.ok y
            else if cellTruthy y then
              match pyFloat y with
              | some z => Except.ok z
              | none => Except.error "ValueError: could not convert to float"
            else Except.ok CellVal.nan) l).map CellVal.arrV
        | _ => .error "TypeError: not iterable") vals
    else if m.basic_type = "UUID" then
      mapExcept (fun x => match x with
        | .arrV l => .ok (CellVal.arrV (l.map (fun y => if cellTruthy y then y else nullUuidCell)))
        | _ => .error "TypeError: not iterable") vals
    else .ok vals
  else
    if m.basic_type = "String" then
      .ok (vals.map (fun x => if cellTruthy x then x else .str ""))
    else if m.basic_type = "Float" ∨ m.basic_type = "Int" then
      .ok (vals.map fillnaZero)
    else if m.basic_type = "UUID" then
      .ok (vals.map (fun x => if cellTruthy x then x else nullUuidCell))
    else .ok vals

/-- replace_none_where_needed (lines 219-245): every dataframe column is looked
up in metadata (a missing column raises KeyError) and rewritten in place. -/
def replace_none_where_needed (pyFloat : CellVal → Option CellVal)
    (meta : List (String × ColMeta)) (df : List (String × List CellVal)) :
    Except String (List (String × List CellVal)) :=
  mapExcept (fun p =>
    match (meta.find? (fun q => q.1 == p.1)).map (·.2) with
    | none => .error ("KeyError: " ++ p.1)
    | some m => (replaceColumn pyFloat m p.2).map (fun vs => (p.1, vs))) df

/-! ## Coercion: apply_type / safe_apply_type / verify_all_value_types
(ch_df_utils.py lines 285-353)

The runtime pieces of the conversion chain (lines 308-314) are abstracted:
needsConv encodes the isinstance tests deciding whether a conversion call is
made, convApply the conversion call itself (none models an exception, which
the except turns into None), and pyStr the str() rendering used by the
nan tests and the string branch. -/

structure PyRuntime where
  needsConv : Converter → CellVal → Bool
  convApply : Converter → CellVal → Option CellVal
  pyStr : CellVal → String

/-- apply_type (lines 285-316). -/
def apply_type (rt : PyRuntime) (value : CellVal) (conv : Option Converter)
    (required : Bool) : Except String CellVal :=
  match value with
  | .null =>
    if required then
      if conv = some .strC then .ok (.str "")
      else if conv = some .floatC then .ok (.num 0)
      else if conv = some .boolC then .ok (.boolV false)
      else .error "Value cannot be null"
    else
      if conv = some .uuidC then .ok nullUuidCell
      else .ok .null                       -- falls through to the final return value
  | v =>
    -- type(value) == the literal nan string is always false; str(value) detects a NaN
    if rt.pyStr v = "nan" then
      if conv = some .floatC ∨ conv = some .intC ∨ conv = some .boolC then .ok v
      else .ok .null                       -- the uuid branch and the fallthrough both yield None
    else
      match conv with
      | none => .ok .null                  -- isinstance(value, None) raises, caught: None
      | some c =>
        if rt.needsConv c v then .ok ((rt.convApply c v).getD .null)
        else .ok v

def CellVal.isDictCell : CellVal → Bool
  | .mapV _ => true
  | _ => false

def CellVal.isNanCell : CellVal → Bool
  | .nan => true
  | _ => false

/-- safe_apply_type (lines 318-332). -/
def safe_apply_type (rt : PyRuntime) (value : CellVal) (conv : Option Converter)
    (required : Bool) (is_map : Bool) : Except String CellVal :=
  match value with
  | .arrV l => (mapExcept (fun v => apply_type rt v conv required) l).map CellVal.arrV
  | v =>
    if v.isDictCell ∨ is_map then
      match v with
      | .mapV fs =>
        (mapExcept (fun p => (apply_type rt p.2 conv required).map ((p.1, ·))) fs).map CellVal.mapV
      | _ => .ok (.mapV [])                -- column is a map but the value is not a dict
    else if conv = some .strC then
      if v.isNanCell ∨ rt.pyStr v = "nan" then .ok .null
      else match v with
        | .null => .ok .null
        | _ => .ok (.str (rt.pyStr v))
    else apply_type rt v conv required

/-- verify_all_value_types (lines 335-353): columns missing from metadata are
dropped; a coercion error is reported together with the failing column name
(the code prints the name and re-raises). -/
def verify_all_value_types (rt : PyRuntime) (meta : List (String × ColMeta))
    (df : List (String × List CellVal)) :
    Except (String × String) (List (String × List CellVal)) :=
  df.foldlM
    (fun acc p =>
      match (meta.find? (fun q => q.1 == p.1)).map (·.2) with
      | some m =>
        match mapExcept (fun x => safe_apply_type rt x m.converter m.is_req m.is_map) p.2 with
        | .error e => .error (m.name, e)
        | .ok vs => .ok (acc ++ [(p.1, vs)])
      | none => .ok acc)
    []

/-! # Claims -/

/-- C1: the claim states that parsing a Map type fails unless there are exactly
two top-level arguments and that a successful map parse binds key and value.
The code lower-cases the input and then compares the root to the capitalized
literal, so the map branch never fires: Map(String) parses successfully into a
node with a single args entry, and even a two-argument map never has its key
and value fields set.  This theorem evaluates the code on those inputs. -/
theorem C1_map_branch_dead :
    parse_ch_types "Map(String)" =
      some (.mk "map" [] [.mk "string" [] [] none none] none none)
    ∧ (parse_ch_types "Map(String, Int32)").map TypeNode.keyField = some none
    ∧ (parse_ch_types "Map(String, Int32)").map TypeNode.valueField = some none
    ∧ (parse_ch_types "Map(String, Int32)").map TypeNode.args =
        some [.mk "string" [] [] none none, .mk "int32" [] [] none none] :=
  ⟨rfl, rfl, rfl, rfl⟩

/-- C3: the claim states that a Grouped family root contributes no aggregate
expressions to the batch query and its profile stays unpopulated.  In the code
GroupedColumnInfo declares column_type with default ColumnType.NESTED (lines
105-110) and is constructed with only parent_name, so the skip branch for
ColumnType.GROUPED in probe_columns_batch is unreachable: the grouped root of
campaign.id / campaign.name is classified NESTED by the batch builder, receives
the two nested-family aggregates, and its profile is populated by the merge
when the query answers. -/
theorem C3_grouped_root_probed_as_nested :
    (resolveColumns [("campaign.id", "String"), ("campaign.name", "String")]).map
        (fun cols => cols.map (fun p => (p.1, p.2.columnType,
          (buildParts [] p.1 p.2).map (fun sp => sp.expr)))) =
      .ok [("campaign", ColumnType.NESTED,
        ["arrayDistinct(arrayFlatten(groupArray(`campaign.id`))) as campaign__map_keys",
         "countIf(length(arrayFlatten(`campaign.id`)) > 0) as campaign__value_rows"])]
    ∧ (resolveColumns [("campaign.id", "String"), ("campaign.name", "String")]).map
        (fun cols =>
          (probe_columns_batch "db" "t" (cols.filter (fun p => !p.2.isSubcolumnDetails)) "" []
            (fun _ => .ok [("campaign__map_keys", DBValue.list [])])).1.map
              (fun p => (p.2.profileOf).isSome)) = .ok [true] :=
  ⟨by rfl, by rfl⟩

/-! ### Lookup lemmas for the resolution pass -/

theorem find?_pair_cons {α : Type} (p : String × α) (rest : List (String × α)) (k : String) :
    List.find? (fun q => q.1 == k) (p :: rest) =
      if p.1 == k then some p else List.find? (fun q => q.1 == k) rest := by
  simp only [List.find?]
  rcases h : (p.1 == k) with _ | _ <;> simp

theorem lookupEntry_append_missing (cols : List (String × TableEntry)) (k : String)
    (e : TableEntry) (h : lookupEntry cols k = none) :
    lookupEntry (cols ++ [(k, e)]) k = some e := by
  induction cols with
  | nil => simp [lookupEntry, List.find?]
  | cons p rest ih =>
    unfold lookupEntry at h ⊢
    rw [List.cons_append, find?_pair_cons] at *
    by_cases hp : (p.1 == k) = true
    · rw [if_pos hp] at h; simp at h
    · rw [if_neg hp] at h ⊢
      exact ih h

theorem lookupEntry_updateEntry (cols : List (String × TableEntry)) (k : String)
    (f : TableEntry → TableEntry) :
    lookupEntry (updateEntry cols k f) k = (lookupEntry cols k).map f := by
  induction cols with
  | nil => simp [lookupEntry, updateEntry, List.find?]
  | cons p rest ih =>
    unfold lookupEntry updateEntry at ih ⊢
    simp only [List.map_cons]
    by_cases hp : (p.1 == k) = true
    · rw [if_pos hp, find?_pair_cons, find?_pair_cons, if_pos hp]
      simp only [if_pos hp]
      simp
    · rw [if_neg hp, find?_pair_cons, find?_pair_cons, if_neg hp, if_neg hp]
      exact ih

theorem appendSub_columnType (e : TableEntry) (cd : ColumnDetails) :
    (e.appendSub cd).columnType = e.columnType := by
  cases e <;> rfl

/-- C2: classifier results.  First conjunct: for every dotted column name whose
parsed root type is neither array nor map, determine_column_type yields
GROUPED with the value kind resolved from the root type.  Second conjunct: for
every dotted column classified ARRAY whose family parent is not yet present,
the resolution pass creates the family entry as a NestedColumnInfo, whose
structural kind is NESTED.  The last conjuncts check the two spec examples. -/
theorem C2_grouped_and_nested_classification :
    (∀ (nm ts : String) (node : TypeNode),
      nm.data.any (fun c => c = '.') = true →
      parse_ch_types ((lowerChars ts.data).asString) = some node →
      node.data_type ≠ "array" → node.data_type ≠ "map" →
      determine_column_type nm ts =
        .ok (.GROUPED, resolve_datatype node.data_type, none))
    ∧ (∀ (cols : List (String × TableEntry)) (nm ts : String) (v : ValueType)
         (k : Option ValueType),
        nm.data.any (fun c => c = '.') = true →
        determine_column_type nm ((lowerChars ts.data).asString) = .ok (.ARRAY, v, k) →
        lookupEntry cols (splitDot nm).1 = none →
        ∃ cols2, resolveStep cols (nm, ts) = .ok cols2 ∧
          (lookupEntry cols2 (splitDot nm).1).map TableEntry.columnType =
            some ColumnType.NESTED)
    ∧ determine_column_type "campaign.id" "String" = .ok (.GROUPED, .STRING, none)
    ∧ (resolveColumns [("ids.label", "Array(String)"), ("ids.value", "Array(String)")]).map
        (fun cols => (lookupEntry cols "ids").map TableEntry.columnType) =
      .ok (some ColumnType.NESTED) := by
  refine ⟨?_, ?_, by rfl, by rfl⟩
  · intro nm ts node hdot hparse harr hmap
    unfold determine_column_type
    simp only [hparse, harr, hmap, hdot, if_true, if_false]
  · intro cols nm ts v k hdot hdet hmiss
    have hfresh : (lookupEntry cols (splitDot nm).1).isNone = true := by
      rw [hmiss]; rfl
    unfold resolveStep
    simp only [hdet, hdot, hfresh, if_true]
    refine ⟨_, rfl, ?_⟩
    rw [lookupEntry_updateEntry]
    rw [lookupEntry_append_missing cols (splitDot nm).1 _ hmiss]
    simp [appendSub_columnType]
    rfl

theorem C2_grouped_and_nested_classification_witness :
    determine_column_type "a.b" "UInt64" =
      .ok (.GROUPED, resolve_datatype (TypeNode.data_type (.mk "uint64" [] [] none none)), none)
    ∧ ∃ cols2, resolveStep [] ("ids.label", "Array(String)") = .ok cols2 ∧
        (lookupEntry cols2 (splitDot "ids.label").1).map TableEntry.columnType =
          some ColumnType.NESTED :=
  ⟨C2_grouped_and_nested_classification.1 "a.b" "UInt64" (.mk "uint64" [] [] none none)
     (by rfl) (by rfl) (by decide) (by decide),
   C2_grouped_and_nested_classification.2.1 [] "ids.label" "Array(String)" .STRING none
     (by rfl) (by rfl) (by rfl)⟩

theorem appendSub_profileOf (e : TableEntry) (cd : ColumnDetails) :
    (e.appendSub cd).profileOf = e.profileOf := by
  cases e <;> rfl

theorem resolveStep_profiles_none (cols cols2 : List (String × TableEntry))
    (nameTy : String × String) (hinv : ∀ p ∈ cols, TableEntry.profileOf p.2 = none)
    (h : resolveStep cols nameTy = .ok cols2) : ∀ p ∈ cols2, p.2.profileOf = none := by
  unfold resolveStep at h
  dsimp only at h
  split at h
  · exact absurd h (by simp)
  · split at h
    · rw [Except.ok.injEq] at h
      subst h
      intro p hp
      unfold updateEntry at hp
      rcases List.mem_map.mp hp with ⟨q, hq, rfl⟩
      have hq2 : q.2.profileOf = none := by
        revert hq
        split
        · intro hq
          rcases List.mem_append.mp hq with hq | hq
          · exact hinv q hq
          · rcases List.mem_singleton.mp hq with rfl
            split <;> rfl
        · intro hq
          exact hinv q hq
      split
      · rw [appendSub_profileOf]
        exact hq2
      · exact hq2
    · rw [Except.ok.injEq] at h
      subst h
      intro p hp
      rcases List.mem_append.mp hp with hp | hp
      · exact hinv p hp
      · rcases List.mem_singleton.mp hp with rfl
        rfl

theorem resolveColumns_aux_profiles_none :
    ∀ (schema : List (String × String)) (acc cols : List (String × TableEntry)),
      (∀ p ∈ acc, TableEntry.profileOf p.2 = none) →
      List.foldlM resolveStep acc schema = .ok cols →
      ∀ p ∈ cols, p.2.profileOf = none := by
  intro schema
  induction schema with
  | nil =>
    intro acc cols hinv h
    rw [List.foldlM_nil] at h
    obtain rfl : acc = cols := Except.ok.inj h
    exact hinv
  | cons x xs ih =>
    intro acc cols hinv h
    rw [List.foldlM_cons] at h
    cases hstep : resolveStep acc x with
    | error e =>
      rw [hstep] at h
      exact Except.noConfusion (show (Except.error e : Except String _) = .ok cols from h)
    | ok acc2 =>
      rw [hstep] at h
      have h2 : List.foldlM resolveStep acc2 xs = .ok cols := h
      exact ih acc2 cols (resolveStep_profiles_none acc acc2 x hinv hstep) h2

theorem resolveColumns_profiles_none (schema : List (String × String))
    (cols : List (String × TableEntry)) (h : resolveColumns schema = .ok cols) :
    ∀ p ∈ cols, p.2.profileOf = none :=
  resolveColumns_aux_profiles_none schema [] cols (by intro p hp; cases hp) h

/-- C4: profiling a table whose row count is zero issues no per-column
statistics queries and returns a ProfiledTable with row count zero in which no
column profile is populated. -/
theorem C4_empty_table (db t wc : String) (config : List (String × String)) (lc : Bool)
    (schema : List (String × String))
    (oracle : String → Except ChError (List (String × DBValue)))
    (tOut : ProfiledTable) (qs : List String)
    (h : profile_ch_table db t wc config lc schema (.ok 0) oracle = .ok (tOut, qs)) :
    tOut.rows = 0 ∧ qs = [] ∧ ∀ p ∈ tOut.columns, p.2.profileOf = none := by
  unfold profile_ch_table at h
  cases hres : resolveColumns schema with
  | error m =>
    rw [hres] at h
    exact absurd h (by simp)
  | ok cols =>
    rw [hres] at h
    simp only [show ¬((0 : Int) > 0) by omega, if_neg, if_false, Except.ok.injEq,
      Prod.mk.injEq] at h
    obtain ⟨hT, hq⟩ := h
    subst hT
    refine ⟨rfl, hq.symm, ?_⟩
    exact resolveColumns_profiles_none schema cols hres

def sampleTable0 : ProfiledTable :=
  { database := "db", table := "t", where_clause := "", rows := 0,
    columns := [("a", .details
      { name := "a", type := "string", column_type := .BASIC, key_data_type := none,
        value_data_type := .STRING, required := false, is_nested := none,
        is_nested_subcolumn := none, parent_name := none, child_name := "a",
        nested_path := ["a"], profile := none })] }

theorem C4_empty_table_witness :
    sampleTable0.rows = 0 ∧ ([] : List String) = []
    ∧ ∀ p ∈ sampleTable0.columns, p.2.profileOf = none :=
  C4_empty_table "db" "t" "" [] false [("a", "String")] (fun _ => .error "down")
    sampleTable0 [] (by rfl)

/-- C6: failure semantics of profiling.  First conjunct: an error from the
row-count query propagates and aborts the whole operation.  Second conjunct: a
query error on one batch is caught and leaves that batch unchanged (the merge
never runs for it).  Third conjunct: with a positive row count the batches are
processed independently, every batch query is issued and the result is still
ok whatever the per-batch outcomes, so an error on one batch never prevents
the remaining batches from being processed.  Fourth conjunct: the columns of
an erroring batch end with no statistics. -/
theorem C6_batch_errors_isolated :
    (∀ (db t wc : String) (config : List (String × String)) (lc : Bool)
       (schema : List (String × String))
       (oracle : String → Except ChError (List (String × DBValue))) (e : ChError),
      profile_ch_table db t wc config lc schema (.error e) oracle = .error (.chError e))
    ∧ (∀ (db t wc : String) (batch : List (String × TableEntry))
         (config : List (String × String))
         (oracle : String → Except ChError (List (String × DBValue))) (e : ChError),
        oracle (batchQueryStr db t ((batch.map (fun p => buildParts config p.1 p.2)).flatten) wc)
          = .error e →
        probe_columns_batch db t batch wc config oracle =
          (batch, batchQueryStr db t ((batch.map (fun p => buildParts config p.1 p.2)).flatten) wc))
    ∧ (∀ (db t wc : String) (config : List (String × String))
         (schema : List (String × String))
         (oracle : String → Except ChError (List (String × DBValue)))
         (rows : Int) (cols : List (String × TableEntry)),
        rows > 0 → resolveColumns schema = .ok cols →
        profile_ch_table db t wc config false schema (.ok rows) oracle =
          .ok ({ database := db, table := t, where_clause := wc, rows := rows,
                 columns := writeBack cols
                   (((chunkList (cols.filter (fun p => !p.2.isSubcolumnDetails))).map
                     (fun c => probe_columns_batch db t c
                       (if wc ≠ "" then "WHERE " ++ wc else "") config oracle)).map (·.1)).flatten },
               ((chunkList (cols.filter (fun p => !p.2.isSubcolumnDetails))).map
                 (fun c => probe_columns_batch db t c
                   (if wc ≠ "" then "WHERE " ++ wc else "") config oracle)).map (·.2)))
    ∧ (∀ (db t wc : String) (batch : List (String × TableEntry))
         (config : List (String × String))
         (oracle : String → Except ChError (List (String × DBValue))) (e : ChError),
        oracle (batchQueryStr db t ((batch.map (fun p => buildParts config p.1 p.2)).flatten) wc)
          = .error e →
        (∀ p ∈ batch, p.2.profileOf = none) →
        ∀ p ∈ (probe_columns_batch db t batch wc config oracle).1, p.2.profileOf = none) := by
  have hprobe : ∀ (db t wc : String) (batch : List (String × TableEntry))
      (config : List (String × String))
      (oracle : String → Except ChError (List (String × DBValue))) (e : ChError),
      oracle (batchQueryStr db t ((batch.map (fun p => buildParts config p.1 p.2)).flatten) wc)
        = .error e →
      probe_columns_batch db t batch wc config oracle =
        (batch, batchQueryStr db t ((batch.map (fun p => buildParts config p.1 p.2)).flatten) wc) := by
    intro db t wc batch config oracle e ho
    unfold probe_columns_batch
    dsimp only
    rw [ho]
  refine ⟨?_, fun db t wc batch config oracle e ho => hprobe db t wc batch config oracle e ho,
    ?_, ?_⟩
  · intro db t wc config lc schema oracle e
    rfl
  · intro db t wc config schema oracle rows cols hrows hres
    unfold profile_ch_table
    rw [hres]
    dsimp only
    rw [if_pos hrows]
    rfl
  · intro db t wc batch config oracle e ho hinv p hp
    rw [hprobe db t wc batch config oracle e ho] at hp
    exact hinv p hp

def cdA : ColumnDetails :=
  { name := "a", type := "string", column_type := .BASIC, key_data_type := none,
    value_data_type := .STRING, required := false, is_nested := none,
    is_nested_subcolumn := none, parent_name := none, child_name := "a",
    nested_path := ["a"], profile := none }

theorem C6_batch_errors_isolated_witness :
    profile_ch_table "d" "t" "" [] false [("a", "String")] (.error "boom")
        (fun _ => .ok []) = .error (.chError "boom")
    ∧ probe_columns_batch "d" "t" [("a", .details cdA)] "" [] (fun _ => .error "down") =
        ([("a", .details cdA)],
         batchQueryStr "d" "t"
           (([("a", TableEntry.details cdA)].map
             (fun p => buildParts [] p.1 p.2)).flatten) "")
    ∧ profile_ch_table "d" "t" "" [] false [("a", "String")] (.ok 5) (fun _ => .error "down") =
        .ok ({ database := "d", table := "t", where_clause := "", rows := 5,
               columns := writeBack [("a", .details cdA)]
                 (((chunkList ([("a", TableEntry.details cdA)].filter
                     (fun p => !p.2.isSubcolumnDetails))).map
                   (fun c => probe_columns_batch "d" "t" c
                     (if ("" : String) ≠ "" then "WHERE " ++ "" else "") []
                     (fun _ => .error "down"))).map (·.1)).flatten },
             ((chunkList ([("a", TableEntry.details cdA)].filter
                 (fun p => !p.2.isSubcolumnDetails))).map
               (fun c => probe_columns_batch "d" "t" c
                 (if ("" : String) ≠ "" then "WHERE " ++ "" else "") []
                 (fun _ => .error "down"))).map (·.2))
    ∧ (∀ p ∈ (probe_columns_batch "d" "t" [("a", .details cdA)] "" []
        (fun _ => .error "down")).1, p.2.profileOf = none) :=
  ⟨C6_batch_errors_isolated.1 "d" "t" "" [] false [("a", "String")] (fun _ => .ok []) "boom",
   C6_batch_errors_isolated.2.1 "d" "t" "" [("a", .details cdA)] [] (fun _ => .error "down")
     "down" (by rfl),
   C6_batch_errors_isolated.2.2.1 "d" "t" "" [] [("a", "String")] (fun _ => .error "down")
     5 [("a", .details cdA)] (by omega) (by rfl),
   C6_batch_errors_isolated.2.2.2 "d" "t" "" [("a", .details cdA)] [] (fun _ => .error "down")
     "down" (by rfl) (by intro p hp; rcases List.mem_singleton.mp hp with rfl; rfl)⟩

/-! ### Item lookup lemmas for the flattening claim -/

def lookupItem (item : Item) (k : String) : Option JVal :=
  (item.find? (fun p => p.1 == k)).map (·.2)

theorem lookupItem_set_of_any (item : Item) (k : String) (v : JVal)
    (h : item.any (fun p => p.1 == k) = true) :
    lookupItem (item.map (fun p => if p.1 == k then (p.1, v) else p)) k = some v := by
  induction item with
  | nil => simp at h
  | cons p rest ih =>
    rw [List.any_cons] at h
    by_cases hp : (p.1 == k) = true
    · unfold lookupItem
      rw [List.map_cons, if_pos hp, find?_pair_cons, if_pos hp]
      rfl
    · unfold lookupItem
      rw [List.map_cons, if_neg hp, find?_pair_cons, if_neg hp]
      have hrest : rest.any (fun p => p.1 == k) = true := by
        rcases Bool.or_eq_true_iff.mp h with h1 | h1
        · exact absurd h1 hp
        · exact h1
      exact ih hrest

theorem lookupItem_append_single_of_none (item : Item) (k : String) (v : JVal)
    (h : item.any (fun p => p.1 == k) = false) :
    lookupItem (item ++ [(k, v)]) k = some v := by
  induction item with
  | nil =>
    unfold lookupItem
    rw [List.nil_append, find?_pair_cons, if_pos (by simp)]
    rfl
  | cons p rest ih =>
    rw [List.any_cons, Bool.or_eq_false_iff] at h
    unfold lookupItem
    rw [List.cons_append, find?_pair_cons, if_neg (by rw [h.1]; simp)]
    exact ih h.2

theorem setItemKey_lookup_self (item : Item) (k : String) (v : JVal) :
    lookupItem (setItemKey item k v) k = some v := by
  unfold setItemKey
  by_cases h : item.any (fun p => p.1 == k) = true
  · rw [if_pos h]
    exact lookupItem_set_of_any item k v h
  · rw [if_neg h]
    exact lookupItem_append_single_of_none item k v (Bool.not_eq_true _ ▸ (by simpa using h))

theorem lookup_map_update_other (item : Item) (k k2 : String) (v : JVal) (hne : k2 ≠ k) :
    lookupItem (item.map (fun p => if p.1 == k then (p.1, v) else p)) k2 = lookupItem item k2 := by
  induction item with
  | nil => rfl
  | cons p rest ih =>
    unfold lookupItem
    rw [List.map_cons, find?_pair_cons]
    by_cases hp : (p.1 == k) = true
    · rw [if_pos hp]
      have hp2 : (p.1 == k2) = false := by
        have : p.1 = k := by simpa using hp
        subst this
        simpa using fun hc => hne hc.symm
      rw [find?_pair_cons, if_neg (by simp [hp2]), if_neg (by simp [hp2])]
      exact ih
    · rw [if_neg hp, find?_pair_cons]
      by_cases hp2 : (p.1 == k2) = true
      · rw [if_pos hp2, if_pos hp2]
      · rw [if_neg hp2, if_neg hp2]
        exact ih

theorem lookup_append_single_other (item : Item) (k k2 : String) (v : JVal) (hne : k2 ≠ k) :
    lookupItem (item ++ [(k, v)]) k2 = lookupItem item k2 := by
  induction item with
  | nil =>
    unfold lookupItem
    rw [List.nil_append, find?_pair_cons, if_neg (by simpa using fun hc => hne hc.symm)]
  | cons p rest ih =>
    unfold lookupItem
    rw [List.cons_append, find?_pair_cons, find?_pair_cons]
    by_cases hp2 : (p.1 == k2) = true
    · rw [if_pos hp2, if_pos hp2]
    · rw [if_neg hp2, if_neg hp2]
      exact ih

theorem setItemKey_lookup_other (item : Item) (k k2 : String) (v : JVal) (hne : k2 ≠ k) :
    lookupItem (setItemKey item k v) k2 = lookupItem item k2 := by
  unfold setItemKey
  split
  · exact lookup_map_update_other item k k2 v hne
  · exact lookup_append_single_other item k k2 v hne

theorem delItemKey_lookup_self (item : Item) (k : String) :
    lookupItem (delItemKey item k) k = none := by
  induction item with
  | nil => rfl
  | cons p rest ih =>
    unfold delItemKey at ih ⊢
    rw [List.filter_cons]
    by_cases hp : (p.1 == k) = true
    · rw [if_neg (by simp [hp])]
      exact ih
    · rw [if_pos (by simp [hp])]
      unfold lookupItem
      rw [find?_pair_cons, if_neg hp]
      exact ih

theorem delItemKey_lookup_other (item : Item) (k k2 : String) (hne : k2 ≠ k) :
    lookupItem (delItemKey item k) k2 = lookupItem item k2 := by
  induction item with
  | nil => rfl
  | cons p rest ih =>
    unfold delItemKey at ih ⊢
    rw [List.filter_cons]
    by_cases hp : (p.1 == k) = true
    · rw [if_neg (by simp [hp])]
      unfold lookupItem
      rw [find?_pair_cons]
      have hp2 : (p.1 == k2) = false := by
        have : p.1 = k := by simpa using hp
        subst this
        simpa using fun hc => hne hc.symm
      rw [if_neg (by simp [hp2])]
      exact ih
    · rw [if_pos (by simp [hp])]
      unfold lookupItem
      rw [find?_pair_cons, find?_pair_cons]
      by_cases hp2 : (p.1 == k2) = true
      · rw [if_pos hp2, if_pos hp2]
      · rw [if_neg hp2, if_neg hp2]
        exact ih

theorem foldl_setItemKey_preserve (f : NestedComponent → JVal) :
    ∀ (comps : List NestedComponent) (item : Item) (k : String),
      (∀ c ∈ comps, c.name ≠ k) →
      lookupItem (comps.foldl (fun it comp => setItemKey it comp.name (f comp)) item) k =
        lookupItem item k := by
  intro comps
  induction comps with
  | nil => intro item k _; rfl
  | cons c cs ih =>
    intro item k hk
    rw [List.foldl_cons]
    rw [ih (setItemKey item c.name (f c)) k (fun d hd => hk d (List.mem_cons_of_mem c hd))]
    exact setItemKey_lookup_other item c.name k (f c)
      (fun hc => hk c (List.mem_cons_self c cs) hc.symm)

theorem foldl_setItemKey_lookup (f : NestedComponent → JVal) :
    ∀ (comps : List NestedComponent) (item : Item),
      (comps.map NestedComponent.name).Nodup →
      ∀ c ∈ comps,
        lookupItem (comps.foldl (fun it comp => setItemKey it comp.name (f comp)) item) c.name =
          some (f c) := by
  intro comps
  induction comps with
  | nil => intro item _ c hc; cases hc
  | cons c0 cs ih =>
    intro item hnd c hc
    rw [List.map_cons, List.nodup_cons] at hnd
    rw [List.foldl_cons]
    rcases List.mem_cons.mp hc with rfl | hc
    · rw [foldl_setItemKey_preserve f cs _ c.name
        (fun d hd hdc => hnd.1 (hdc ▸ List.mem_map_of_mem NestedComponent.name hd))]
      exact setItemKey_lookup_self item c.name (f c)
    · exact ih (setItemKey item c0.name (f c0)) hnd.2 c hc

/-- C5: flattening a Nested family present on a record as a list of objects
replaces the field with one sibling array per subcolumn; every sibling array
has exactly the length of the original object list, an object missing the
projected field contributes null at its index, and the original nested field
is removed. -/
theorem C5_flatten_parallel_arrays (item : Item) (famName : String)
    (comps : List NestedComponent) (vs : List JVal)
    (hlk : lookupItem item famName = some (JVal.arr vs))
    (hnd : (comps.map NestedComponent.name).Nodup)
    (hne : ∀ c ∈ comps, c.name ≠ famName) :
    (∀ c ∈ comps,
      lookupItem (flattenFamily item famName comps) c.name =
          some (.arr (vs.map (projectField c.comp_field)))
        ∧ (vs.map (projectField c.comp_field)).length = vs.length)
    ∧ lookupItem (flattenFamily item famName comps) famName = none
    ∧ (∀ (fname : String) (fs : List (String × JVal)),
        fs.find? (fun p => p.1 == fname) = none →
        projectField fname (.obj fs) = .null) := by
  have hff : flattenFamily item famName comps =
      delItemKey (comps.foldl
        (fun it comp => setItemKey it comp.name (.arr (vs.map (projectField comp.comp_field))))
        item) famName := by
    unfold flattenFamily
    rw [show (item.find? (fun p => p.1 == famName)).map (·.2) =
      lookupItem item famName from rfl, hlk]
  refine ⟨?_, ?_, ?_⟩
  · intro c hc
    constructor
    · rw [hff, delItemKey_lookup_other _ _ _ (hne c hc)]
      exact foldl_setItemKey_lookup
        (fun comp => .arr (vs.map (projectField comp.comp_field))) comps item hnd c hc
    · exact List.length_map vs _
  · rw [hff]
    exact delItemKey_lookup_self _ famName
  · intro fname fs hfind
    unfold projectField
    by_cases ht : jTruthy (.obj fs) = true
    · rw [if_pos ht]
      dsimp only
      rw [hfind]
      rfl
    · rw [if_neg ht]

def itemSample : Item :=
  [("items", .arr [.obj [("id", .str "a"), ("qty", .num 1)], .obj [("id", .str "b")]])]

def compsSample : List NestedComponent := [⟨"items.id", "id"⟩, ⟨"items.qty", "qty"⟩]

def itemVals : List JVal :=
  [.obj [("id", .str "a"), ("qty", .num 1)], .obj [("id", .str "b")]]

theorem C5_flatten_parallel_arrays_witness :
    (∀ c ∈ compsSample,
      lookupItem (flattenFamily itemSample "items" compsSample) c.name =
          some (.arr ((itemVals).map (projectField c.comp_field)))
        ∧ ((itemVals).map (projectField c.comp_field)).length = itemVals.length)
    ∧ lookupItem (flattenFamily itemSample "items" compsSample) "items" = none
    ∧ (∀ (fname : String) (fs : List (String × JVal)),
        fs.find? (fun p => p.1 == fname) = none →
        projectField fname (.obj fs) = .null) :=
  C5_flatten_parallel_arrays itemSample "items" compsSample itemVals (by rfl)
    (by simp [compsSample]) (by
      intro c hc
      rcases List.mem_cons.mp hc with rfl | hc
      · simp
      · rcases List.mem_singleton.mp hc with rfl
        simp)

/-- C7: null-default coercion in replace_none_where_needed.  A Map column maps
every null cell to the empty map; a required scalar String column maps every
falsy cell (null in particular) to the empty string; a required scalar UUID
column maps every falsy cell (null in particular) to the all-zero UUID.  The
trailing conjuncts instantiate the rewrites at a null cell. -/
theorem C7_null_defaults (pyFloat : CellVal → Option CellVal) (m : ColMeta)
    (vals : List CellVal) :
    (m.is_map = true →
      replaceColumn pyFloat m vals =
        .ok (vals.map (fun x => if x.isNullCell then CellVal.mapV [] else x)))
    ∧ (m.is_map = false → m.is_array = false → m.is_req = true → m.basic_type = "String" →
      replaceColumn pyFloat m vals =
        .ok (vals.map (fun x => if cellTruthy x then x else CellVal.str "")))
    ∧ (m.is_map = false → m.is_array = false → m.is_req = true → m.basic_type = "UUID" →
      replaceColumn pyFloat m vals =
        .ok (vals.map (fun x => if cellTruthy x then x else nullUuidCell)))
    ∧ (if CellVal.null.isNullCell then CellVal.mapV [] else CellVal.null) = CellVal.mapV []
    ∧ (if cellTruthy CellVal.null then CellVal.null else CellVal.str "") = CellVal.str ""
    ∧ (if cellTruthy CellVal.null then CellVal.null else nullUuidCell) =
        CellVal.uuidV "00000000-0000-0000-0000-000000000000" := by
  refine ⟨?_, ?_, ?_, rfl, rfl, rfl⟩
  · intro hm
    unfold replaceColumn
    rw [if_pos hm]
  · intro hm ha hr hs
    unfold replaceColumn
    rw [if_neg (by simp [hm]), if_neg (by simp [ha]), if_pos hs]
  · intro hm ha hr hu
    unfold replaceColumn
    rw [if_neg (by simp [hm]), if_neg (by simp [ha]),
      if_neg (by simp [hu]), if_neg (by simp [hu]), if_pos hu]

def metaMapCol : ColMeta :=
  { name := "tags", type := "map(string, string)", is_map := true, is_req := true,
    is_array := false, basic_type := "String,String", converter := some .strC }

def metaStrCol : ColMeta :=
  { name := "s", type := "string", is_map := false, is_req := true,
    is_array := false, basic_type := "String", converter := some .strC }

def metaUuidCol : ColMeta :=
  { name := "u", type := "uuid", is_map := false, is_req := true,
    is_array := false, basic_type := "UUID", converter := some .uuidC }

theorem C7_null_defaults_witness :
    replaceColumn (fun _ => none) metaMapCol [CellVal.null] = .ok [CellVal.mapV []]
    ∧ replaceColumn (fun _ => none) metaStrCol [CellVal.null] = .ok [CellVal.str ""]
    ∧ replaceColumn (fun _ => none) metaUuidCol [CellVal.null] =
        .ok [CellVal.uuidV "00000000-0000-0000-0000-000000000000"] :=
  ⟨(C7_null_defaults (fun _ => none) metaMapCol [CellVal.null]).1 (by rfl),
   (C7_null_defaults (fun _ => none) metaStrCol [CellVal.null]).2.1 (by rfl) (by rfl)
     (by rfl) (by rfl),
   (C7_null_defaults (fun _ => none) metaUuidCol [CellVal.null]).2.2.1 (by rfl) (by rfl)
     (by rfl) (by rfl)⟩

/-! ### Error characterization of the coercion chain -/

theorem mapExcept_error {a b : Type} (f : a → Except String b) :
    ∀ (l : List a) (e : String), mapExcept f l = .error e → ∃ x ∈ l, f x = .error e := by
  intro l
  induction l with
  | nil => intro e h; exact absurd h (by simp [mapExcept])
  | cons x xs ih =>
    intro e h
    unfold mapExcept at h
    split at h
    · rename_i e2 hfx
      obtain rfl : e2 = e := Except.error.inj h
      exact ⟨x, List.mem_cons_self x xs, hfx⟩
    · split at h
      · rename_i hrec
        obtain rfl := Except.error.inj h
        obtain ⟨z, hz, hfz⟩ := ih _ hrec
        exact ⟨z, List.mem_cons_of_mem x hz, hfz⟩
      · exact absurd h (by simp)

theorem apply_type_error_char (rt : PyRuntime) (v : CellVal) (conv : Option Converter)
    (req : Bool) (e : String) (h : apply_type rt v conv req = .error e) :
    e = "Value cannot be null" ∧ req = true ∧ v = .null
    ∧ conv ≠ some .strC ∧ conv ≠ some .floatC ∧ conv ≠ some .boolC := by
  cases v
  case null =>
    unfold apply_type at h
    dsimp only at h
    split at h
    · split at h
      · exact Except.noConfusion h
      · split at h
        · exact Except.noConfusion h
        · split at h
          · exact Except.noConfusion h
          · rename_i hreq h1 h2 h3
            exact ⟨(Except.error.inj h).symm, hreq, rfl, h1, h2, h3⟩
    · split at h
      · exact Except.noConfusion h
      · exact Except.noConfusion h
  all_goals
    unfold apply_type at h
    dsimp only at h
    split at h
    · split at h
      · exact Except.noConfusion h
      · exact Except.noConfusion h
    · split at h
      · exact Except.noConfusion h
      · split at h
        · exact Except.noConfusion h
        · exact Except.noConfusion h

def CellVal.isListCell : CellVal → Bool
  | .arrV _ => true
  | _ => false

theorem safe_apply_type_error_char (rt : PyRuntime) (v : CellVal) (conv : Option Converter)
    (req : Bool) (im : Bool) (e : String)
    (h : safe_apply_type rt v conv req im = .error e) :
    e = "Value cannot be null" ∧ req = true
    ∧ conv ≠ some .strC ∧ conv ≠ some .floatC ∧ conv ≠ some .boolC := by
  cases v
  case arrV l =>
    unfold safe_apply_type at h
    dsimp only at h
    cases hm : mapExcept (fun w => apply_type rt w conv req) l with
    | error e2 =>
      rw [hm] at h
      rw [Except.error.inj h] at hm
      obtain ⟨z, _, hz⟩ := mapExcept_error _ l e hm
      obtain ⟨h1, h2, _, h4, h5, h6⟩ := apply_type_error_char rt z conv req e hz
      exact ⟨h1, h2, h4, h5, h6⟩
    | ok ys =>
      rw [hm] at h
      exact Except.noConfusion h
  case mapV fs =>
    unfold safe_apply_type at h
    dsimp only at h
    rw [if_pos (Or.inl (show (CellVal.mapV fs).isDictCell = true from rfl))] at h
    cases hm : mapExcept (fun p => (apply_type rt p.2 conv req).map ((p.1, ·))) fs with
    | error e2 =>
      rw [hm] at h
      rw [Except.error.inj h] at hm
      obtain ⟨z, _, hz⟩ := mapExcept_error _ fs e hm
      have hz2 : apply_type rt z.2 conv req = .error e := by
        cases ha : apply_type rt z.2 conv req with
        | error e3 =>
          rw [ha] at hz
          have he3 : e3 = e := Except.error.inj
            (show (Except.error e3 : Except String (String × CellVal)) = .error e from hz)
          rw [he3]
        | ok y =>
          rw [ha] at hz
          exact Except.noConfusion
            (show (Except.ok ((z.1, y)) : Except String (String × CellVal)) =
              Except.error e from hz)
      obtain ⟨h1, h2, _, h4, h5, h6⟩ := apply_type_error_char rt z.2 conv req e hz2
      exact ⟨h1, h2, h4, h5, h6⟩
    | ok ys =>
      rw [hm] at h
      exact Except.noConfusion h
  all_goals
    unfold safe_apply_type at h
    dsimp only at h
    split at h
    · exact Except.noConfusion h
    · split at h
      · split at h
        · exact Except.noConfusion h
        · exact Except.noConfusion h
      · obtain ⟨h1, h2, _, h4, h5, h6⟩ := apply_type_error_char rt _ conv req e h
        exact ⟨h1, h2, h4, h5, h6⟩

def rtStub : PyRuntime := ⟨fun _ _ => true, fun _ _ => none, fun _ => ""⟩

/-- C8, counterexample to the claim as stated: a Map column (is_map true)
holding a list value is caught by the list branch of safe_apply_type before
the map branch, so it is coerced elementwise into a list, not resolved to the
empty map default of its declared kind. -/
theorem C8_map_holding_list_counterexample :
    safe_apply_type rtStub (CellVal.arrV [CellVal.num 1]) (some .uuidC) false true =
      .ok (.arrV [.null])
    ∧ CellVal.arrV [CellVal.null] ≠ CellVal.mapV [] :=
  ⟨by rfl, fun h => CellVal.noConfusion h⟩

/-- C8 amended: a Map column holding a value that is neither a dict nor a list
resolves to the empty map without raising (a list is instead coerced
elementwise); the only case of the verification/coercion chain that raises is
a required value that is null with a converter admitting no null default (not
str, float or bool), and verify_all_value_types reports the raising error
together with the name of the failing column. -/
theorem C8_mismatch_defaults_amended :
    (∀ (rt : PyRuntime) (v : CellVal) (conv : Option Converter) (req : Bool),
      v.isDictCell = false → v.isListCell = false →
      safe_apply_type rt v conv req true = .ok (.mapV []))
    ∧ (∀ (rt : PyRuntime) (v : CellVal) (conv : Option Converter) (req im : Bool)
         (e : String),
        safe_apply_type rt v conv req im = .error e →
        e = "Value cannot be null" ∧ req = true
        ∧ conv ≠ some .strC ∧ conv ≠ some .floatC ∧ conv ≠ some .boolC)
    ∧ (∀ (rt : PyRuntime) (meta : List (String × ColMeta))
         (df : List (String × List CellVal)) (nm e : String),
        verify_all_value_types rt meta df = .error (nm, e) →
        ∃ p ∈ df, ∃ m : ColMeta,
          (meta.find? (fun q => q.1 == p.1)).map (·.2) = some m ∧ m.name = nm ∧
          mapExcept (fun x => safe_apply_type rt x m.converter m.is_req m.is_map) p.2 =
            .error e) := by
  refine ⟨?_, fun rt v conv req im e h => safe_apply_type_error_char rt v conv req im e h, ?_⟩
  · intro rt v conv req hdict hlist
    cases v
    case mapV fs => simp [CellVal.isDictCell] at hdict
    case arrV l => simp [CellVal.isListCell] at hlist
    all_goals
      unfold safe_apply_type
      dsimp only
      rw [if_pos (Or.inr rfl)]
  · intro rt meta df nm e h
    unfold verify_all_value_types at h
    suffices haux : ∀ (df2 : List (String × List CellVal)) (acc : List (String × List CellVal)),
        List.foldlM (fun acc p =>
          match (meta.find? (fun q => q.1 == p.1)).map (·.2) with
          | some m =>
            match mapExcept (fun x => safe_apply_type rt x m.converter m.is_req m.is_map) p.2 with
            | .error e2 => Except.error (m.name, e2)
            | .ok vs => Except.ok (acc ++ [(p.1, vs)])
          | none => Except.ok acc) acc df2 = .error (nm, e) →
        ∃ p ∈ df2, ∃ m : ColMeta,
          (meta.find? (fun q => q.1 == p.1)).map (·.2) = some m ∧ m.name = nm ∧
          mapExcept (fun x => safe_apply_type rt x m.converter m.is_req m.is_map) p.2 =
            .error e by
      exact haux df [] h
    intro df2
    induction df2 with
    | nil =>
      intro acc hfold
      rw [List.foldlM_nil] at hfold
      exact absurd hfold (by simp [pure, Except.pure])
    | cons p ps ih =>
      intro acc hfold
      simp only [List.foldlM_cons] at hfold
      cases hfind : (meta.find? (fun q => q.1 == p.1)).map (·.2) with
      | none =>
        rw [hfind] at hfold
        obtain ⟨q, hq, m, hm⟩ := ih _ hfold
        exact ⟨q, List.mem_cons_of_mem p hq, m, hm⟩
      | some m =>
        rw [hfind] at hfold
        dsimp only at hfold
        cases hmap : mapExcept (fun x => safe_apply_type rt x m.converter m.is_req m.is_map) p.2 with
        | error e2 =>
          rw [hmap] at hfold
          have hpair : (m.name, e2) = (nm, e) :=
            Except.error.inj (show (Except.error (m.name, e2) : Except (String × String)
              (List (String × List CellVal))) = .error (nm, e) from hfold)
          have hnm : m.name = nm := congrArg Prod.fst hpair
          have he : e2 = e := congrArg Prod.snd hpair
          exact ⟨p, List.mem_cons_self p ps, m, hfind, hnm, he ▸ hmap⟩
        | ok vs =>
          rw [hmap] at hfold
          obtain ⟨q, hq, m2, hm2⟩ := ih _ hfold
          exact ⟨q, List.mem_cons_of_mem p hq, m2, hm2⟩

theorem C8_mismatch_defaults_amended_witness :
    safe_apply_type rtStub (CellVal.str "x") (some .uuidC) false true = .ok (.mapV [])
    ∧ ("Value cannot be null" = "Value cannot be null" ∧ true = true
        ∧ some Converter.uuidC ≠ some .strC ∧ some Converter.uuidC ≠ some .floatC
        ∧ some Converter.uuidC ≠ some .boolC)
    ∧ (∃ p ∈ [("u", [CellVal.null])], ∃ m : ColMeta,
        ([("u", metaUuidCol)].find? (fun q => q.1 == p.1)).map (·.2) = some m ∧ m.name = "u" ∧
        mapExcept (fun x => safe_apply_type rtStub x m.converter m.is_req m.is_map) p.2 =
          .error "Value cannot be null") :=
  ⟨C8_mismatch_defaults_amended.1 rtStub (CellVal.str "x") (some .uuidC) false
     (by rfl) (by rfl),
   C8_mismatch_defaults_amended.2.1 rtStub CellVal.null (some .uuidC) true false
     "Value cannot be null" (by rfl),
   C8_mismatch_defaults_amended.2.2 rtStub [("u", metaUuidCol)] [("u", [CellVal.null])]
     "u" "Value cannot be null" (by rfl)⟩

/-! ### Low-cardinality probe characterization -/

theorem ukList_ne_nil (x : Option DBValue) (ks : List DBValue) (h : ukList x = some ks) :
    ks ≠ [] := by
  unfold ukList at h
  split at h
  · rename_i ks2
    split at h
    · exact Option.noConfusion h
    · rename_i hne
      obtain rfl := Option.some.inj h
      intro hnil
      subst hnil
      simp at hne
  · exact Option.noConfusion h

def lcIncluded (cd : ColumnDetails) : Prop :=
  cd.value_data_type = .STRING ∧
  ∃ (prof : ColumnProfile) (uv : Int), cd.profile = some prof ∧
    prof.unique_values = some (.num uv) ∧ 1 < uv ∧ uv < 200 ∧
    (cd.column_type = .BASIC ∨
      (cd.column_type = .MAP ∧ ∃ ks, ukList prof.unique_keys = some ks))

/-- C9 counterexample to the claim as stated: a Map column whose values are
numbers, with unique_values five and a discovered key, is included per the
claim (a Map column whose computed unique_values lies strictly between one and
two hundred) yet receives no select part from the probe, which first requires
value_data_type to be String. -/
def lcMapNumSample : ColumnDetails :=
  { name := "m", type := "map(string, int32)", column_type := .MAP,
    key_data_type := some .STRING, value_data_type := .NUMBER, required := false,
    is_nested := none, is_nested_subcolumn := none, parent_name := none,
    child_name := "m", nested_path := ["m"],
    profile := some { unique_values := some (.num 5),
                      unique_keys := some (.list [.text "a"]) } }

theorem C9_lc_probe_counterexample :
    lcParts ("m", .details lcMapNumSample) = []
    ∧ lcMapNumSample.column_type = ColumnType.MAP
    ∧ lcMapNumSample.value_data_type = ValueType.NUMBER
    ∧ (lcMapNumSample.profile.map (fun pr => pr.unique_values)) = some (some (.num 5))
    ∧ ((1 : Int) < 5 ∧ (5 : Int) < 200) :=
  ⟨by rfl, by rfl, by rfl, by rfl, by omega, by omega⟩

def lcBasicSample : ColumnDetails :=
  { name := "s", type := "string", column_type := .BASIC, key_data_type := none,
    value_data_type := .STRING, required := false, is_nested := none,
    is_nested_subcolumn := none, parent_name := none, child_name := "s",
    nested_path := ["s"], profile := some { unique_values := some (.num 5) } }

/-- C9 amended: the follow-up query includes a column iff it is a String
VALUED ColumnDetails entry whose unique_values lies strictly between one and
two hundred and which is either Basic, or Map with at least one discovered
key; an included Basic column requests the sorted distinct-value list, an
included Map column requests per discovered key the sorted distinct list
restricted to that key, family infos are never included, and the merge of the
follow-up result populates value_list (shown on a concrete run). -/
theorem C9_lc_probe_amended :
    (∀ (nm : String) (cd : ColumnDetails),
      lcParts (nm, .details cd) ≠ [] ↔ lcIncluded cd)
    ∧ (∀ (nm : String) (cd : ColumnDetails) (prof : ColumnProfile) (uv : Int),
        cd.value_data_type = .STRING → cd.column_type = .BASIC →
        cd.profile = some prof → prof.unique_values = some (.num uv) →
        1 < uv → uv < 200 →
        lcParts (nm, .details cd) =
          [⟨nm, nm, s!"arraySort(groupUniqArray(`{nm}`)) as {nm}__{nm}__map_keys"⟩])
    ∧ (∀ (nm : String) (cd : ColumnDetails) (prof : ColumnProfile) (uv : Int)
         (ks : List DBValue),
        cd.value_data_type = .STRING → cd.column_type = .MAP →
        cd.profile = some prof → prof.unique_values = some (.num uv) →
        1 < uv → uv < 200 → ukList prof.unique_keys = some ks →
        lcParts (nm, .details cd) = ks.map (fun k =>
          let mk := dbToString k
          ⟨nm, mk,
           s!"arraySort(groupUniqArray(trim(`{nm}`[\x27{mk}\x27]))) as {nm}__{mk}__map_keys"⟩))
    ∧ (∀ (nm : String) (ni : NestedColumnInfo) (gi : GroupedColumnInfo),
        lcParts (nm, .nestedInfo ni) = [] ∧ lcParts (nm, .groupedInfo gi) = [])
    ∧ (profile_low_cardinality_columns "db" "t" [("s", .details lcBasicSample)] ""
        (fun _ => .ok [("s__s__map_keys", .list [.text "x", .text "y"])])).map
          (fun r => r.1.map (fun p => (p.2.profileOf).map (fun pr => pr.value_list))) =
        .ok [some [("s", DBValue.list [.text "x", .text "y"])]] := by
  refine ⟨?_, ?_, ?_, ?_, by rfl⟩
  · intro nm cd
    unfold lcParts
    dsimp only
    by_cases h1 : cd.value_data_type = ValueType.STRING
    · rw [if_pos h1]
      cases hp : cd.profile with
      | none => simp [lcIncluded, hp]
      | some prof =>
        dsimp only
        cases huv : prof.unique_values with
        | none => simp [lcIncluded, hp, huv]
        | some dv =>
          cases dv with
          | num uv =>
            dsimp only
            by_cases hb : (uv ≠ 0 ∧ 1 < uv ∧ uv < 200)
            · rw [if_pos hb]
              by_cases hmap : cd.column_type = ColumnType.MAP
              · rw [if_pos hmap]
                cases huk : ukList prof.unique_keys with
                | some ks =>
                  constructor
                  · intro _
                    exact ⟨h1, prof, uv, hp, huv, hb.2.1, hb.2.2,
                      Or.inr ⟨hmap, ks, huk⟩⟩
                  · intro _
                    rw [Ne, List.map_eq_nil_iff]
                    exact ukList_ne_nil _ ks huk
                | none =>
                  simp only [ne_eq, not_true_eq_false, false_iff, lcIncluded]
                  rintro ⟨-, prof2, uv2, hp2, huv2, -, -, hor⟩
                  rw [hp] at hp2
                  obtain rfl := Option.some.inj hp2
                  rcases hor with hbas | ⟨-, ks, hks⟩
                  · rw [hmap] at hbas
                    exact ColumnType.noConfusion hbas
                  · rw [huk] at hks
                    exact Option.noConfusion hks
              · rw [if_neg hmap]
                by_cases hbas : cd.column_type = ColumnType.BASIC
                · rw [if_pos hbas]
                  constructor
                  · intro _
                    exact ⟨h1, prof, uv, hp, huv, hb.2.1, hb.2.2, Or.inl hbas⟩
                  · intro _
                    simp
                · rw [if_neg hbas]
                  simp only [ne_eq, not_true_eq_false, false_iff, lcIncluded]
                  rintro ⟨-, prof2, uv2, hp2, huv2, -, -, hor⟩
                  rcases hor with h2 | ⟨h2, -⟩
                  · exact hbas h2
                  · exact hmap h2
            · rw [if_neg hb]
              simp only [ne_eq, not_true_eq_false, false_iff, lcIncluded]
              rintro ⟨-, prof2, uv2, hp2, huv2, hgt, hlt, -⟩
              rw [hp] at hp2
              obtain rfl := Option.some.inj hp2
              rw [huv] at huv2
              obtain huv3 := Option.some.inj huv2
              obtain rfl : uv = uv2 := DBValue.num.inj huv3
              exact hb ⟨by omega, hgt, hlt⟩
          | null =>
            simp [lcIncluded, hp, huv]
          | text s2 =>
            simp [lcIncluded, hp, huv]
          | list l2 =>
            simp [lcIncluded, hp, huv]
    · rw [if_neg h1]
      simp [lcIncluded, h1]
  · intro nm cd prof uv h1 hbas hp huv hgt hlt
    unfold lcParts
    dsimp only
    rw [if_pos h1, hp]
    dsimp only
    rw [huv]
    dsimp only
    rw [if_pos (show uv ≠ 0 ∧ 1 < uv ∧ uv < 200 from ⟨by omega, hgt, hlt⟩),
      if_neg (by rw [hbas]; exact fun hc => ColumnType.noConfusion hc), if_pos hbas]
  · intro nm cd prof uv ks h1 hmap hp huv hgt hlt huk
    unfold lcParts
    dsimp only
    rw [if_pos h1, hp]
    dsimp only
    rw [huv]
    dsimp only
    rw [if_pos (show uv ≠ 0 ∧ 1 < uv ∧ uv < 200 from ⟨by omega, hgt, hlt⟩),
      if_pos hmap, huk]
  · intro nm ni gi
    exact ⟨rfl, rfl⟩

theorem C9_lc_probe_amended_witness :
    (lcParts ("s", .details lcBasicSample) ≠ [] ↔ lcIncluded lcBasicSample)
    ∧ lcParts ("s", .details lcBasicSample) =
        [⟨"s", "s", "arraySort(groupUniqArray(`s`)) as s__s__map_keys"⟩] :=
  ⟨C9_lc_probe_amended.1 "s" lcBasicSample,
   C9_lc_probe_amended.2.1 "s" lcBasicSample { unique_values := some (.num 5) } 5
     (by rfl) (by rfl) (by rfl) (by rfl) (by omega) (by omega)⟩

/-- C10: the parser terminates on every input: every recursive call is on a
strictly shorter string, so the fuel-indexed parser agrees with parse_ch_types
at any fuel above the input length, and always returns a node or the failure
value (the Option result), never an exception. -/
theorem C10_parser_terminates (s : String) (fuel : Nat) (h : s.data.length < fuel) :
    parseF fuel s.data = parse_ch_types s :=
  parseF_fuel fuel s.data h

theorem C10_parser_terminates_witness :
    "array(array(array(map(a, b))))".data.length < 500
    ∧ parseF 500 "array(array(array(map(a, b))))".data =
        parse_ch_types "array(array(array(map(a, b))))"
    ∧ parse_ch_types "" = some (.mk "" [] [] none none)
    ∧ parse_ch_types "uint64" = some (.mk "uint64" [] [] none none) :=
  ⟨by decide, C10_parser_terminates "array(array(array(map(a, b))))" 500 (by decide),
   rfl, rfl⟩

end CH
